import Mathlib

set_option maxRecDepth 10000

/-!
Verification of the screen-change detection and analysis pipeline of the
dia-assistant repository (src/modules/screen_scanner.py), shallowly embedded
in Lean 4.

Modelling conventions:
* Python strings are embedded as List Char; only the ASCII fragment of
  Python's case folding, isalnum and whitespace classes is modelled (every
  concrete input used below is ASCII).
* Python floats are embedded as exact rationals; the numeric literals of the
  source (0.3, 0.85, ...) are the corresponding rationals.
* The regular expressions of the source are embedded through a small
  backtracking matcher (RE below) whose alternation prefers the left branch
  and whose quantifiers (all of which act on single-character classes in the
  source's patterns) enumerate repetition counts greedily or lazily, exactly
  as the CPython engine does for these patterns.
* difflib.SequenceMatcher with isjunk none is embedded including the
  autojunk rule (popular elements of b are dropped from the index when b has
  at least 200 elements) and the junk extension passes.
* External collaborators (screen capture via mss, pytesseract OCR, wall
  clock) are oracle inputs: each monitor tick receives the captured frame's
  visual-hash string and OCR text, or the indication that capture failed or
  that the tick body raised.
-/

/-! ### Python character and string primitives (ASCII fragment) -/

def pyIsSpace (c : Char) : Bool :=
  c = ' ' || c = '\t' || c = '\n' || c = '\r' || c = Char.ofNat 11 || c = Char.ofNat 12

def pyIsDigit (c : Char) : Bool := '0' ≤ c && c ≤ '9'

def pyIsAlpha (c : Char) : Bool := ('a' ≤ c && c ≤ 'z') || ('A' ≤ c && c ≤ 'Z')

def pyIsAlnumChar (c : Char) : Bool := pyIsAlpha c || pyIsDigit c

/-- Python str.isalnum: nonempty and every character alphanumeric. -/
def pyIsAlnum (w : List Char) : Bool := !w.isEmpty && w.all pyIsAlnumChar

def pyLower (s : List Char) : List Char := s.map Char.toLower

/-- Python str.split() with no separator: split on whitespace runs,
dropping empty pieces.  The accumulator holds the current word reversed. -/
def pySplitAux : List Char → List Char → List (List Char)
  | [], acc => if acc.isEmpty then [] else [acc.reverse]
  | c :: cs, acc =>
    if pyIsSpace c then
      if acc.isEmpty then pySplitAux cs [] else acc.reverse :: pySplitAux cs []
    else pySplitAux cs (c :: acc)

def pySplit (s : List Char) : List (List Char) := pySplitAux s []

/-- Python str.strip(): remove leading and trailing whitespace. -/
def pyStrip (s : List Char) : List Char :=
  ((s.dropWhile pyIsSpace).reverse.dropWhile pyIsSpace).reverse

/-- Python " ".join. -/
def joinSp : List (List Char) → List Char
  | [] => []
  | [w] => w
  | w :: ws => w ++ ' ' :: joinSp ws

/-- re.sub of the pattern backslash-s-plus with a single space: every maximal
whitespace run is replaced by one space.  The flag records whether we are
inside a run whose replacement space was already emitted. -/
def collapseWsAux : List Char → Bool → List Char
  | [], _ => []
  | c :: cs, inRun =>
    if pyIsSpace c then
      if inRun then collapseWsAux cs true else ' ' :: collapseWsAux cs true
    else c :: collapseWsAux cs false

def collapseWs (s : List Char) : List Char := collapseWsAux s false

/-! ### A small regex engine

Sufficient for the patterns of screen_scanner.py: every quantifier in those
patterns ranges over a single-character class, so repetition is a constructor
on character predicates.  Matching is backtracking with CPython's priorities:
alternation prefers the left alternative, greedy repetition prefers longer
counts, lazy repetition shorter ones. -/

inductive RE where
  | eps : RE
  | pred : (Char → Bool) → RE
  | lit : List Char → Bool → RE          -- literal, case-insensitive flag
  | cat : RE → RE → RE
  | alt : RE → RE → RE
  | reps : (Char → Bool) → Nat → Option Nat → Bool → RE
                                         -- class, min, max (none = ∞), lazy flag

/-- Case-insensitive (ASCII) or exact literal match at the head. -/
def litHere : List Char → Bool → List Char → Bool
  | [], _, _ => true
  | _ :: _, _, [] => false
  | p :: ps, ci, c :: cs =>
    (if ci then p.toLower = c.toLower else p = c) && litHere ps ci cs

/-- Length of the maximal prefix run of characters satisfying p. -/
def runLen (p : Char → Bool) : List Char → Nat
  | [] => 0
  | c :: cs => if p c then runLen p cs + 1 else 0

/-- Candidate repetition counts in priority order: lo..m ascending when lazy,
m..lo descending when greedy (empty when m < lo). -/
def repCounts (lo m : Nat) (lzy : Bool) : List Nat :=
  if lzy then (List.range' lo (m + 1 - lo)) else (List.range' lo (m + 1 - lo)).reverse

/-- First candidate on which the continuation succeeds. -/
def firstSome (k : List Char → Option (List Char)) (s : List Char) :
    List Nat → Option (List Char)
  | [] => none
  | j :: js =>
    match k (s.drop j) with
    | some r => some r
    | none => firstSome k s js

/-- Backtracking matcher; the continuation receives the input remaining
after the part matched so far, and the overall result is the input remaining
after the full match. -/
def matchC : RE → List Char → (List Char → Option (List Char)) → Option (List Char)
  | .eps, s, k => k s
  | .pred p, s, k =>
    match s with
    | [] => none
    | c :: cs => if p c then k cs else none
  | .lit l ci, s, k => if litHere l ci s then k (s.drop l.length) else none
  | .cat r₁ r₂, s, k => matchC r₁ s (fun s' => matchC r₂ s' k)
  | .alt r₁ r₂, s, k =>
    match matchC r₁ s k with
    | some r => some r
    | none => matchC r₂ s k
  | .reps p lo hi lzy, s, k =>
    let m := match hi with
      | none => runLen p s
      | some h => min (runLen p s) h
    firstSome k s (repCounts lo m lzy)

/-- Match anchored at the head; returns the remaining suffix. -/
def matchAt (r : RE) (s : List Char) : Option (List Char) :=
  matchC r s (fun rest => some rest)

/-- Leftmost match: (text before the match, text after the match). -/
def reFind (r : RE) : List Char → Option (List Char × List Char)
  | [] =>
    match matchAt r [] with
    | some rest => some ([], rest)
    | none => none
  | c :: cs =>
    match matchAt r (c :: cs) with
    | some rest => some ([], rest)
    | none =>
      match reFind r cs with
      | some (pre, rest) => some (c :: pre, rest)
      | none => none

/-- re.sub(pattern, repl, s): replace each leftmost non-overlapping match.
All patterns used below match at least one character, so the fuel
(length of s plus one) is never exhausted. -/
def reSubAux : Nat → RE → List Char → List Char → List Char
  | 0, _, _, s => s
  | fuel + 1, r, repl, s =>
    match reFind r s with
    | none => s
    | some (pre, rest) =>
      if s.length = pre.length + rest.length then s
      else pre ++ repl ++ reSubAux fuel r repl rest

def reSub (r : RE) (repl : List Char) (s : List Char) : List Char :=
  reSubAux (s.length + 1) r repl s

/-- re.search as a boolean. -/
def reSearch (r : RE) (s : List Char) : Bool := (reFind r s).isSome

/-- re.findall for a pattern with no capturing group: the list of matched
substrings of the leftmost non-overlapping matches. -/
def reFindAllAux : Nat → RE → List Char → List (List Char)
  | 0, _, _ => []
  | fuel + 1, r, s =>
    match reFind r s with
    | none => []
    | some (pre, rest) =>
      if s.length = pre.length + rest.length then []
      else
        (s.drop pre.length).take (s.length - pre.length - rest.length) ::
          reFindAllAux fuel r rest

def reFindAll (r : RE) (s : List Char) : List (List Char) :=
  reFindAllAux (s.length + 1) r s

/-! Shorthand for building the concrete patterns. -/

def reLitCI (s : String) : RE := .lit s.toList true

def reLitCS (s : String) : RE := .lit s.toList false

def reDigits (lo : Nat) (hi : Option Nat) : RE := .reps pyIsDigit lo hi false

/-- One optional whitespace character (greedy), as in backslash-s-question. -/
def reOptWs : RE := .reps pyIsSpace 0 (some 1) false

/-! ### difflib.SequenceMatcher (isjunk none, autojunk true)

Embedded generically over the element type: screen_scanner uses it both on
character strings (text similarity) and on lists of line lengths (structure
similarity).  ratio() is 2 * M / (len a + len b) where M is the total size of
the matching blocks. -/

section SeqMatcher

variable {α : Type} [DecidableEq α]

/-- Ascending list of the indices at which x occurs in b (the b2j table). -/
def indicesOf (b : List α) (x : α) : List Nat :=
  (List.range b.length).filter (fun i => b.get? i = some x)

def countOcc (b : List α) (x : α) : Nat := b.count x

/-- The autojunk rule: when b has at least 200 elements, elements occurring
more than (len b / 100 + 1) times are dropped from the b2j table.  (They are
recorded as popular, not as junk, so the junk-aware extension passes of
find_longest_match still treat them as ordinary elements.) -/
def isPopular (b : List α) (x : α) : Bool :=
  decide (200 ≤ b.length) && decide (b.length / 100 + 1 < countOcc b x)

def b2j (b : List α) (x : α) : List Nat :=
  if isPopular b x then [] else indicesOf b x

/-- Lookup in an association list with default 0 (the j2len dictionaries). -/
def lookupD (l : List (Nat × Nat)) (k : Nat) : Nat :=
  match l.lookup k with
  | some v => v
  | none => 0

/-- One row of the find_longest_match dynamic scan: process the occurrence
indices js of a!i (already restricted to [blo, bhi)), reading the previous
row j2old and threading (new row, best triple as (besti, bestj, bestsize)). -/
def flmRow (j2old : List (Nat × Nat)) (i : Nat) (js : List Nat)
    (best : Nat × Nat × Nat) : List (Nat × Nat) × (Nat × Nat × Nat) :=
  js.foldl
    (fun acc j =>
      let k := (if j = 0 then 0 else lookupD j2old (j - 1)) + 1
      let row := (j, k) :: acc.1
      let b := acc.2
      if b.2.2 < k then (row, (i + 1 - k, j + 1 - k, k)) else (row, b))
    ([], best)

/-- Number of consecutive equal element pairs a!(i-1-t), b!(j-1-t), t
counting up while within the fuel bound (used for the leftward extension). -/
def commonBack (a b : List α) : Nat → Nat → Nat → Nat
  | _, _, 0 => 0
  | i, j, fuel + 1 =>
    if 0 < i ∧ 0 < j ∧ (a.get? (i - 1)).isSome ∧ a.get? (i - 1) = b.get? (j - 1) then
      commonBack a b (i - 1) (j - 1) fuel + 1
    else 0

/-- Number of consecutive equal element pairs a!(i+t), b!(j+t) (rightward
extension). -/
def commonFwd (a b : List α) : Nat → Nat → Nat → Nat
  | _, _, 0 => 0
  | i, j, fuel + 1 =>
    if (a.get? i).isSome ∧ a.get? i = b.get? j then
      commonFwd a b (i + 1) (j + 1) fuel + 1
    else 0

/-- find_longest_match on the index ranges [alo, ahi) of a and [blo, bhi) of
b: the dynamic scan over the b2j table followed by the two extension passes.
With isjunk none the junk set is empty, so the first pair of extension loops
extends over all equal elements (including popular ones dropped from b2j)
and the second pair is vacuous. -/
def findLongestMatch (a b : List α) (alo ahi blo bhi : Nat) : Nat × Nat × Nat :=
  let scan :=
    (List.range' alo (ahi - alo)).foldl
      (fun acc i =>
        let js :=
          match a.get? i with
          | some x => ((b2j b x).filter (fun j => blo ≤ j)).takeWhile (fun j => j < bhi)
          | none => []
        let (row, best) := flmRow acc.1 i js acc.2
        (row, best))
      ([], (alo, blo, 0))
  let best := scan.2
  let besti := best.1
  let bestj := best.2.1
  let bestsize := best.2.2
  let eL := commonBack a b besti bestj (min (besti - alo) (bestj - blo))
  let besti := besti - eL
  let bestj := bestj - eL
  let bestsize := bestsize + eL
  let eR := commonFwd a b (besti + bestsize) (bestj + bestsize)
      (min (ahi - (besti + bestsize)) (bhi - (bestj + bestsize)))
  (besti, bestj, bestsize + eR)

/-- Total size of the matching blocks: recursively split around the longest
match, as get_matching_blocks does.  The fuel bounds the recursion depth;
(len a + len b + 1) always suffices because each recursive call strictly
shrinks the sum of the two ranges. -/
def matchTotalAux (a b : List α) : Nat → Nat → Nat → Nat → Nat → Nat
  | 0, _, _, _, _ => 0
  | fuel + 1, alo, ahi, blo, bhi =>
    let m := findLongestMatch a b alo ahi blo bhi
    let i := m.1
    let j := m.2.1
    let k := m.2.2
    if k = 0 then 0
    else matchTotalAux a b fuel alo i blo j + k + matchTotalAux a b fuel (i + k) ahi (j + k) bhi

def seqMatchTotal (a b : List α) : Nat :=
  matchTotalAux a b (a.length + b.length + 1) 0 a.length 0 b.length

/-- SequenceMatcher.ratio(): 2 M / (len a + len b), and 1 when both empty. -/
def seqRatio (a b : List α) : ℚ :=
  if a.length + b.length = 0 then 1
  else (2 * seqMatchTotal a b : ℚ) / (a.length + b.length : ℚ)

end SeqMatcher

/-! ### The noise patterns and text normalization
(screen_scanner.py: the noise-pattern list built in the constructor and
the method clean_text_for_comparison; all eight patterns are applied with
re.IGNORECASE, in list order). -/

def noisePatTimestamp : RE :=
  .cat (reDigits 2 (some 2)) (.cat (reLitCI ":")
    (.cat (reDigits 2 (some 2)) (.cat (reLitCI ":") (reDigits 2 (some 2)))))

def noisePatClock : RE :=
  .cat (reDigits 1 (some 2)) (.cat (reLitCI ":") (.cat (reDigits 2 (some 2))
    (.cat reOptWs (.alt (reLitCI "AM") (reLitCI "PM")))))

def noisePatPercent : RE := .cat (reDigits 1 none) (.cat reOptWs (reLitCI "%"))

def noisePatCount : RE := .cat (reDigits 1 none) (.cat (reLitCI "/") (reDigits 1 none))

def noisePatSpinner : RE := .pred (fun c => c = '|' || c = '\\' || c = '/' || c = '-')

def noisePatDots : RE := reLitCI "●○◐◑◒◓"

def noisePatTyping : RE := reLitCI "Typing..."

def noisePatStatus : RE :=
  .alt (reLitCI "Online") (.alt (reLitCI "Offline") (.alt (reLitCI "Away") (reLitCI "Busy")))

def noise_patterns : List RE :=
  [noisePatTimestamp, noisePatClock, noisePatPercent, noisePatCount,
   noisePatSpinner, noisePatDots, noisePatTyping, noisePatStatus]

/-- Word filter of clean_text_for_comparison: keep words longer than two
characters or fully alphanumeric ones. -/
def keepWord (w : List Char) : Bool := decide (2 < w.length) || pyIsAlnum w

/-- The noise-stripping pass: the eight noise patterns applied by re.sub in
list order. -/
def stripNoise (text : List Char) : List Char :=
  noise_patterns.foldl (fun acc p => reSub p [] acc) text

/-- clean_text_for_comparison: strip the noise patterns, collapse whitespace,
drop short non-alphanumeric tokens, join with single spaces, strip and
lowercase.  Empty input maps to the empty string. -/
def clean_text_for_comparison (text : List Char) : List Char :=
  if text.isEmpty then []
  else
    let cleaned := stripNoise text
    let cleaned := collapseWs cleaned
    let filtered := (pySplit cleaned).filter keepWord
    pyLower (pyStrip (joinSp filtered))

/-- Words that contain no whitespace and at least one character — the shape
of everything produced by pySplit. -/
def goodWord (w : List Char) : Prop :=
  w ≠ [] ∧ ∀ c ∈ w, pyIsSpace c = false

/-! ### calculate_text_similarity -/

/-- calculate_text_similarity: 0 when either input is falsy; otherwise the
SequenceMatcher ratio, blended with the Jaccard index of the word sets
(0.7 / 0.3) when both word sets are nonempty. -/
def calculate_text_similarity (text1 text2 : List Char) : ℚ :=
  if text1.isEmpty || text2.isEmpty then 0
  else
    let similarity := seqRatio text1 text2
    let words1 := (pySplit text1).dedup
    let words2 := (pySplit text2).dedup
    if !words1.isEmpty && !words2.isEmpty then
      let interCard := (words1.filter (fun w => words2.contains w)).length
      let unionCard := words1.length + (words2.filter (fun w => !words1.contains w)).length
      let word_similarity : ℚ := (interCard : ℚ) / (unionCard : ℚ)
      similarity * (7/10) + word_similarity * (3/10)
    else similarity

/-! ### calculate_structure_similarity -/

/-- Python str.split of a single newline separator: keeps empty pieces, and
the split of the empty string is one empty piece. -/
def splitNlAux : List Char → List Char → List (List Char)
  | [], acc => [acc.reverse]
  | c :: cs, acc =>
    if c = '\n' then acc.reverse :: splitNlAux cs [] else splitNlAux cs (c :: acc)

def splitNl (s : List Char) : List (List Char) := splitNlAux s []

/-- calculate_structure_similarity on the raw (non-normalized) texts:
line-count similarity (weight 0.3) blended with the SequenceMatcher ratio of
the per-line length sequences (weight 0.7). -/
def calculate_structure_similarity (text1 text2 : List Char) : ℚ :=
  if text1.isEmpty || text2.isEmpty then 0
  else
    let lines1 := splitNl text1
    let lines2 := splitNl text2
    let maxLines := max (max lines1.length lines2.length) 1
    let countDiff := ((lines1.length : Int) - (lines2.length : Int)).natAbs
    let line_count_similarity : ℚ := 1 - (countDiff : ℚ) / (maxLines : ℚ)
    let lens1 := lines1.map List.length
    let lens2 := lines2.map List.length
    let structure_sim :=
      if !lens1.isEmpty && !lens2.isEmpty then seqRatio lens1 lens2
      else line_count_similarity
    line_count_similarity * (3/10) + structure_sim * (7/10)

/-! ### detect_semantic_changes and detect_url_or_title_change

The category indicator patterns are literal strings searched with re.search
and no flags in the lowercased texts (so patterns containing an uppercase
letter never match there); the title and url patterns are searched with
re.findall and re.IGNORECASE in the raw texts, and the two patterns with a
capturing group collect the group text. -/

def indicator_categories : List (String × List String) :=
  [("new_page", ["Loading", "Welcome to", "Sign in", "Login", "Home", "Dashboard"]),
   ("navigation", ["Back to", "Go to", "Navigate to", "Switch to"]),
   ("errors", ["Error", "Failed", "Unable to", "Not found", "Access denied"]),
   ("completion", ["Complete", "Finished", "Success", "Done", "Saved"]),
   ("forms", ["Submit", "Enter", "Required", "Please fill", "Form"])]

def countMatches (pats : List String) (s : List Char) : Nat :=
  (pats.filter (fun p => reSearch (reLitCS p) s)).length

/-- Generic leftmost scan for a bespoke anchored matcher returning
(captured group, rest after the match). -/
def findScan (f : List Char → Option (List Char × List Char)) :
    List Char → Option (List Char × List Char)
  | [] => f []
  | c :: cs =>
    match f (c :: cs) with
    | some r => some r
    | none => findScan f cs

/-- Repeated leftmost scan collecting the captured groups; every pattern
scanned this way consumes at least one character per match, so fuel
(input length plus one) is never exhausted. -/
def findAllScan (f : List Char → Option (List Char × List Char)) :
    Nat → List Char → List (List Char)
  | 0, _ => []
  | fuel + 1, s =>
    match findScan f s with
    | none => []
    | some (g, r) => g :: findAllScan f fuel r

/-- The lazy middle of the title-tag pattern: from the text following the
opening tag, take non-newline characters up to the earliest closing tag. -/
def titleCloseFrom : List Char → Option (List Char × List Char)
  | [] => none
  | c :: cs =>
    if litHere "</title>".toList true (c :: cs) then some ([], (c :: cs).drop 8)
    else if c = '\n' then none
    else
      match titleCloseFrom cs with
      | some (g, r) => some (c :: g, r)
      | none => none

/-- Anchored match of the first title pattern (the group of
open-tag lazy-dot-star close-tag, IGNORECASE). -/
def matchTitleTagAt (s : List Char) : Option (List Char × List Char) :=
  if litHere "<title>".toList true s then titleCloseFrom (s.drop 7) else none

/-- Anchored match of the second title pattern: the document-title
assignment with optional whitespace around the equals sign and a quoted
value (the group is the text between the quotes). -/
def matchDocTitleAt (s : List Char) : Option (List Char × List Char) :=
  if litHere "document.title".toList true s then
    let r1 := (s.drop 14).dropWhile pyIsSpace
    match r1 with
    | '=' :: r2 =>
      let r3 := r2.dropWhile pyIsSpace
      match r3 with
      | q :: r4 =>
        if q = '"' || q = '\'' then
          let g := r4.takeWhile (fun c => !(c = '"' || c = '\''))
          match r4.drop g.length with
          | q2 :: r5 => if q2 = '"' || q2 = '\'' then some (g, r5) else none
          | [] => none
        else none
      | [] => none
    | _ => none
  else none

/-- The third title pattern (title-like runs of letters and separators,
IGNORECASE turns the uppercase classes into any-letter classes and the
negated lowercase class into a non-letter class); dot does not match
newline. -/
def titleLikePattern : RE :=
  .cat (.pred pyIsAlpha)
    (.cat (.reps (fun c => !pyIsAlpha c) 0 none false)
      (.cat (.pred pyIsAlpha)
        (.cat (.reps (fun c => c ≠ '\n') 0 none true)
          (.cat (.alt (reLitCS "|") (.alt (reLitCS "—") (reLitCS "-")))
            (.cat (.reps (fun c => c ≠ '\n') 0 none true) (.pred pyIsAlpha))))))

def urlHttpPattern : RE :=
  .cat (reLitCI "http")
    (.cat (.reps (fun c => c.toLower = 's') 0 (some 1) false)
      (.cat (reLitCI "://") (.reps (fun c => !pyIsSpace c) 1 none false)))

def urlWwwPattern : RE :=
  .cat (reLitCI "www.") (.reps (fun c => !pyIsSpace c) 1 none false)

def urlDomainPattern : RE :=
  .cat (.reps (fun c => pyIsAlnumChar c || c = '.' || c = '-') 1 none false)
    (.cat (reLitCS ".") (.reps pyIsAlpha 2 none false))

/-- The findall result (list of matched strings, or captured groups for the
two patterns that have one) of each title and url pattern, in source order. -/
def urlTitleFindall (s : List Char) : List (List (List Char)) :=
  [findAllScan matchTitleTagAt (s.length + 1) s,
   findAllScan matchDocTitleAt (s.length + 1) s,
   reFindAll titleLikePattern s,
   reFindAll urlHttpPattern s,
   reFindAll urlWwwPattern s,
   reFindAll urlDomainPattern s]

/-- Equality of the two findall results as sets. -/
def listSetEq (l1 l2 : List (List Char)) : Bool :=
  l1.all (fun x => l2.contains x) && l2.all (fun x => l1.contains x)

def detect_url_or_title_change (current_text last_text : List Char) : Bool :=
  ((urlTitleFindall current_text).zip (urlTitleFindall last_text)).any
    (fun p => !listSetEq p.1 p.2)

structure SemanticChanges where
  has_major_changes : Bool
  changes : List String
  confidence : ℚ
  deriving DecidableEq

/-- detect_semantic_changes: per category, a higher indicator match count in
the new text adds 0.2 confidence, a disappeared category adds 0.1; a
url-or-title change adds 0.3; major when the accumulated confidence exceeds
0.3, with the reported confidence capped at 1. -/
def detect_semantic_changes (current_text last_text : List Char) : SemanticChanges :=
  let current_lower := pyLower current_text
  let last_lower := pyLower last_text
  let acc := indicator_categories.foldl
    (fun (acc : List String × ℚ) cat =>
      let cm := countMatches cat.2 current_lower
      let lm := countMatches cat.2 last_lower
      if lm < cm then (acc.1 ++ ["new_" ++ cat.1], acc.2 + 2/10)
      else if cm < lm && 0 < lm then (acc.1 ++ ["lost_" ++ cat.1], acc.2 + 1/10)
      else acc)
    ([], 0)
  let acc :=
    if detect_url_or_title_change current_text last_text then
      (acc.1 ++ ["navigation_change"], acc.2 + 3/10)
    else acc
  { has_major_changes := decide ((3 : ℚ)/10 < acc.2),
    changes := acc.1,
    confidence := min acc.2 1 }

/-! ### analyze_screen_change (the ChangeClassifier) -/

/-- The decision fields of the analysis dictionary built by
analyze_screen_change (the details message and the raw similarity readings
stored alongside are omitted: no claim concerns them). -/
structure ChangeAnalysis where
  is_significant : Bool
  is_major : Bool
  change_type : String
  confidence : ℚ
  deriving DecidableEq

def initialCaptureAnalysis : ChangeAnalysis :=
  { is_significant := true, is_major := true,
    change_type := "initial_capture", confidence := 1 }

/-- analyze_screen_change(current_text, visual_hash) reads the stored
baseline text; here the baseline is the first argument and the similarity
threshold (config default 0.85) is explicit.  The visual hash argument of
the source is unused by the analysis. -/
def analyze_screen_change (simThreshold : ℚ) (last_screen_text current_text : List Char) :
    ChangeAnalysis :=
  if last_screen_text.isEmpty || current_text.isEmpty then initialCaptureAnalysis
  else
    let clean_current := clean_text_for_comparison current_text
    let clean_last := clean_text_for_comparison last_screen_text
    let text_similarity := calculate_text_similarity clean_current clean_last
    let structure_similarity := calculate_structure_similarity current_text last_screen_text
    let semantic_changes := detect_semantic_changes current_text last_screen_text
    if text_similarity < 3/10 then
      { is_significant := true, is_major := true,
        change_type := "major_content_change", confidence := 1 - text_similarity }
    else if structure_similarity < 4/10 then
      { is_significant := true, is_major := true,
        change_type := "layout_change", confidence := 1 - structure_similarity }
    else if semantic_changes.has_major_changes then
      { is_significant := true, is_major := true,
        change_type := "semantic_change", confidence := semantic_changes.confidence }
    else if text_similarity < simThreshold then
      { is_significant := true, is_major := false,
        change_type := "content_update",
        confidence := (simThreshold - text_similarity) / simThreshold }
    else
      { is_significant := false, is_major := false,
        change_type := "minor_change", confidence := 0 }

/-! ### has_significant_visual_change

Visual hashes are the fingerprint strings computed per captured frame
(calculate_visual_hash hashes a downsampled luminance bit grid through md5
and keeps 16 hex characters; on any failure it returns the empty string,
the sentinel for an unreadable frame).  The hashing of the image itself is
an external-image computation; the fingerprints enter the model as oracle
tick inputs, the empty string standing for the sentinel, and the comparison
logic below is embedded from the source. -/

/-- has_significant_visual_change(current) compared against the stored hash
(first argument; empty also covers the Python none initial value, which is
equally falsy).  True means: proceed with OCR and full analysis. -/
def has_significant_visual_change (visualChangeThreshold : ℚ)
    (last_visual_hash current_visual_hash : List Char) : Bool :=
  if last_visual_hash.isEmpty || current_visual_hash.isEmpty then true
  else if current_visual_hash = last_visual_hash then false
  else if current_visual_hash.length = last_visual_hash.length then
    let hamming_distance :=
      ((current_visual_hash.zip last_visual_hash).filter (fun p => p.1 ≠ p.2)).length
    let similarity : ℚ := 1 - (hamming_distance : ℚ) / (current_visual_hash.length : ℚ)
    decide (similarity < 1 - visualChangeThreshold)
  else true

/-! ### The monitor loop (monitor_screen_changes)

One scanner tick, embedded as a state transformer.  External effects enter
as oracle inputs: a tick either raised an exception in its body (exn), or
captured nothing (capture_full_screen returned a falsy value), or produced a
frame whose visual-hash string and OCR text are given, together with the
time.time() value read at the notification gate.  The returned flag reports
an accepted (baseline-updating, callback-notifying) change. -/

structure MonitorConfig where
  similarity_threshold : ℚ := 85/100
  visual_change_threshold : ℚ := 15/100
  confidence_threshold : ℚ := 5/10
  deriving DecidableEq

structure FrameData where
  visual_hash : List Char
  ocr_text : List Char
  deriving DecidableEq

inductive TickInput where
  | exn : TickInput
  | tick : Option FrameData → ℚ → TickInput
  deriving DecidableEq

structure LoopState where
  monitoring_active : Bool
  last_screen_text : List Char
  last_visual_hash : List Char
  last_major_change : ℚ
  consecutive_errors : Nat
  has_callback : Bool
  deriving DecidableEq

/-- OCR failure strings are tagged OCR_ERROR: by extract_text_from_image. -/
def ocrErrorTagged (t : List Char) : Bool := "OCR_ERROR:".toList.isPrefixOf t

/-- The maximum consecutive error count of the loop. -/
def max_consecutive_errors : Nat := 5

/-- The minimum spacing (seconds) between accepted non-major notifications. -/
def min_interval : ℚ := 5

/-- One iteration of the monitoring while loop. -/
def monitor_tick (cfg : MonitorConfig) (st : LoopState) (inp : TickInput) :
    LoopState × Bool :=
  match inp with
  | .exn =>
    let ce := st.consecutive_errors + 1
    if max_consecutive_errors ≤ ce then
      ({ st with consecutive_errors := ce, monitoring_active := false }, false)
    else
      ({ st with consecutive_errors := ce }, false)
  | .tick none _ =>
    ({ st with consecutive_errors := st.consecutive_errors + 1 }, false)
  | .tick (some f) now =>
    if has_significant_visual_change cfg.visual_change_threshold
        st.last_visual_hash f.visual_hash then
      if !f.ocr_text.isEmpty && !ocrErrorTagged f.ocr_text then
        let st1 := { st with consecutive_errors := 0 }
        let analysis :=
          analyze_screen_change cfg.similarity_threshold st.last_screen_text f.ocr_text
        if analysis.is_significant then
          if cfg.confidence_threshold ≤ analysis.confidence
              && (analysis.is_major || min_interval ≤ now - st.last_major_change) then
            ({ st1 with
                last_screen_text := f.ocr_text,
                last_visual_hash := f.visual_hash,
                last_major_change := now }, true)
          else (st1, false)
        else (st1, false)
      else (st, false)
    else (st, false)

/-- The monitoring loop over a finite input trace (trace end standing for
the stop event); the while condition is re-checked before every tick, so
a self-terminated loop consumes no further input.  Returns the final state
and the number of accepted changes. -/
def run_monitor (cfg : MonitorConfig) : LoopState → List TickInput → LoopState × Nat
  | st, [] => (st, 0)
  | st, inp :: inps =>
    if st.monitoring_active then
      let (st1, accepted) := monitor_tick cfg st inp
      let (st2, n) := run_monitor cfg st1 inps
      (st2, (if accepted then 1 else 0) + n)
    else (st, 0)

/-! ### start_continuous_monitoring

The scanner-level state touched by start_continuous_monitoring, and the
observable outcome of a call.  A Python exception propagating to the caller
would be the raised outcome; the source raises nothing on these paths and
reports through its logger only. -/

structure ScannerState where
  monitoring_active : Bool
  tesseract_available : Bool
  has_callback : Bool
  last_screen_text : List Char
  last_visual_hash : List Char
  deriving DecidableEq

inductive StartOutcome where
  | started : StartOutcome
  | warnedAlreadyActive : StartOutcome
  | loggedTesseractError : StartOutcome
  | raised : StartOutcome
  deriving DecidableEq

/-- update_baseline_screen: capture and OCR once (oracle input); store the
text and hash only when OCR produced a non-error, nonempty text. -/
def update_baseline_screen (st : ScannerState) (cap : Option FrameData) : ScannerState :=
  match cap with
  | none => st
  | some f =>
    if !f.ocr_text.isEmpty && !ocrErrorTagged f.ocr_text then
      { st with last_screen_text := f.ocr_text, last_visual_hash := f.visual_hash }
    else st

/-- start_continuous_monitoring(change_callback): warn and return when
already active; log an error and return when tesseract is unavailable;
otherwise store the callback, set the active flag, capture an initial
baseline and spawn the worker. -/
def start_continuous_monitoring (st : ScannerState) (callbackGiven : Bool)
    (initialCapture : Option FrameData) : ScannerState × StartOutcome :=
  if st.monitoring_active then (st, .warnedAlreadyActive)
  else if !st.tesseract_available then (st, .loggedTesseractError)
  else
    (update_baseline_screen
      { st with has_callback := callbackGiven, monitoring_active := true }
      initialCapture, .started)

/-! ### Specification-side definitions

Definitions in this block follow the wording of the specification (or of a
claim), for comparison against the embedded source functions above. -/

/-- The decision table of spec 4.4 exactly as claim C1 words it: the
initial-capture branch fires only when no baseline exists (the stored
baseline of the source is a string, initialized empty, so an absent baseline
is the empty baseline); every later branch is as claimed. -/
def classifierDecisionTableClaimed (threshold : ℚ) (baseline current : List Char) :
    ChangeAnalysis :=
  if baseline.isEmpty then initialCaptureAnalysis
  else
    if calculate_text_similarity (clean_text_for_comparison current)
        (clean_text_for_comparison baseline) < 3/10 then
      { is_significant := true, is_major := true, change_type := "major_content_change",
        confidence := 1 - calculate_text_similarity (clean_text_for_comparison current)
          (clean_text_for_comparison baseline) }
    else if calculate_structure_similarity current baseline < 4/10 then
      { is_significant := true, is_major := true, change_type := "layout_change",
        confidence := 1 - calculate_structure_similarity current baseline }
    else if (detect_semantic_changes current baseline).has_major_changes then
      { is_significant := true, is_major := true, change_type := "semantic_change",
        confidence := (detect_semantic_changes current baseline).confidence }
    else if calculate_text_similarity (clean_text_for_comparison current)
        (clean_text_for_comparison baseline) < threshold then
      { is_significant := true, is_major := false, change_type := "content_update",
        confidence := (threshold - calculate_text_similarity
          (clean_text_for_comparison current) (clean_text_for_comparison baseline))
          / threshold }
    else
      { is_significant := false, is_major := false, change_type := "minor_change",
        confidence := 0 }

/-- The decision table amended as the code forces: the first branch fires
when the baseline is absent or empty OR when the current text is empty;
the remaining branches are exactly as claim C1 states them. -/
def classifierDecisionTableAmended (threshold : ℚ) (baseline current : List Char) :
    ChangeAnalysis :=
  if baseline.isEmpty || current.isEmpty then initialCaptureAnalysis
  else
    if calculate_text_similarity (clean_text_for_comparison current)
        (clean_text_for_comparison baseline) < 3/10 then
      { is_significant := true, is_major := true, change_type := "major_content_change",
        confidence := 1 - calculate_text_similarity (clean_text_for_comparison current)
          (clean_text_for_comparison baseline) }
    else if calculate_structure_similarity current baseline < 4/10 then
      { is_significant := true, is_major := true, change_type := "layout_change",
        confidence := 1 - calculate_structure_similarity current baseline }
    else if (detect_semantic_changes current baseline).has_major_changes then
      { is_significant := true, is_major := true, change_type := "semantic_change",
        confidence := (detect_semantic_changes current baseline).confidence }
    else if calculate_text_similarity (clean_text_for_comparison current)
        (clean_text_for_comparison baseline) < threshold then
      { is_significant := true, is_major := false, change_type := "content_update",
        confidence := (threshold - calculate_text_similarity
          (clean_text_for_comparison current) (clean_text_for_comparison baseline))
          / threshold }
    else
      { is_significant := false, is_major := false, change_type := "minor_change",
        confidence := 0 }

/-- The word set of a text (Python set(text.split())). -/
def wordSet (t : List Char) : Finset (List Char) := (pySplit t).toFinset

/-- The text-similarity contract in the claim's terms, amended as the code
forces: 0 when either input is empty (also when both are); otherwise the
0.7-weighted sequence-alignment ratio blended with the 0.3-weighted Jaccard
index over the word sets when each input has at least one word, and the
bare sequence-alignment ratio for whitespace-only inputs. -/
def textSimilaritySpec (a b : List Char) : ℚ :=
  if a.isEmpty || b.isEmpty then 0
  else if (wordSet a).Nonempty ∧ (wordSet b).Nonempty then
    seqRatio a b * (7/10) +
      (((wordSet a ∩ wordSet b).card : ℚ) / ((wordSet a ∪ wordSet b).card : ℚ)) * (3/10)
  else seqRatio a b


/-! ### Concrete inputs used by witnesses and counterexamples -/

def textGlass : List Char := "glass quilt sigma lemma".toList
def textQuilt : List Char := "quilt omega flock river".toList
def textPride : List Char := "pride haven crane flock".toList
def textLemma : List Char := "lemma sound omega cloud".toList

def hashB : List Char := "bbbbbbbbbbbbbbbb".toList
def hashC : List Char := "cccccccccccccccc".toList
def hashD : List Char := "dddddddddddddddd".toList

def cfgDefault : MonitorConfig := {}

/-- The default configuration with a raised confidence threshold. -/
def cfgStrict : MonitorConfig := { confidence_threshold := 7/10 }

/-- Three ticks at seconds 10, 12 and 13: the quilt, pride and lemma texts. -/
def traceQPL : List TickInput :=
  [.tick (some ⟨hashB, textQuilt⟩) 10,
   .tick (some ⟨hashC, textPride⟩) 12,
   .tick (some ⟨hashD, textLemma⟩) 13]

/-- Spec 4.1, Hasher.compare: similarity 1 for equal fingerprints, otherwise
the normalized Hamming agreement over the fixed-length hash characters. -/
def fingerprintSimilarity (last cur : List Char) : ℚ :=
  if cur = last then 1
  else 1 - (((cur.zip last).filter (fun p => p.1 ≠ p.2)).length : ℚ) / (cur.length : ℚ)

/-! ### Claim C1 -/

/-- Claim C1 (counterexample): the decision order exactly as claimed fails
on the code at baseline "hello" with empty current text: the claimed table
reaches the major-content branch (the text similarity against an empty
cleaned text is 0) while the code returns the initial-capture analysis. -/
theorem classifier_claimed_table_refuted :
    classifierDecisionTableClaimed (85/100) "hello".toList [] ≠
      analyze_screen_change (85/100) "hello".toList [] := by
  with_unfolding_all decide

/-- Claim C1 (amended): the classification of analyze_screen_change follows
the claimed first-match decision order with its branch conditions,
change types and confidences, once the first branch is read as firing when
the baseline is absent or empty or the current text is empty. -/
theorem analyze_screen_change_decision_order (threshold : ℚ)
    (baseline current : List Char) :
    analyze_screen_change threshold baseline current =
      classifierDecisionTableAmended threshold baseline current := by
  rfl

/-! ### Claim C10 -/

/-- Claim C10: the initial-capture analysis (significant, major, type
initial_capture, confidence 1) is returned whenever the current text is
empty, not only when the baseline is absent, and an empty-string baseline is
treated the same as an absent baseline. -/
theorem analyze_screen_change_empty_edges (threshold : ℚ) (baseline current : List Char) :
    analyze_screen_change threshold baseline [] = initialCaptureAnalysis ∧
      analyze_screen_change threshold [] current = initialCaptureAnalysis := by
  constructor
  · simp [analyze_screen_change]
  · simp [analyze_screen_change]

/-! ### Claim C5 -/

section ListFinsetHelpers

variable {α : Type} [DecidableEq α] [BEq α] [LawfulBEq α]

theorem contains_dedup_iff (l : List α) (x : α) :
    (l.dedup.contains x = true) ↔ x ∈ l := by
  simp [List.contains]

theorem length_filter_contains_dedup (l1 l2 : List α) :
    (l1.dedup.filter (fun x => l2.dedup.contains x)).length =
      (l1.toFinset ∩ l2.toFinset).card := by
  have hnd : (l1.dedup.filter (fun x => l2.dedup.contains x)).Nodup :=
    l1.nodup_dedup.filter _
  have hset : (l1.dedup.filter (fun x => l2.dedup.contains x)).toFinset =
      l1.toFinset ∩ l2.toFinset := by
    ext x
    simp [List.mem_filter, List.mem_dedup, List.contains]
  rw [← hset, List.toFinset_card_of_nodup hnd]

theorem length_union_split_dedup (l1 l2 : List α) :
    l1.dedup.length + (l2.dedup.filter (fun x => !l1.dedup.contains x)).length =
      (l1.toFinset ∪ l2.toFinset).card := by
  have hnd : (l2.dedup.filter (fun x => !l1.dedup.contains x)).Nodup :=
    l2.nodup_dedup.filter _
  have hset : (l2.dedup.filter (fun x => !l1.dedup.contains x)).toFinset =
      l2.toFinset \ l1.toFinset := by
    ext x
    simp [List.mem_filter, List.mem_dedup, List.contains]
  have hcard2 : (l2.dedup.filter (fun x => !l1.dedup.contains x)).length =
      (l2.toFinset \ l1.toFinset).card := by
    rw [← hset, List.toFinset_card_of_nodup hnd]
  have hu : (l1.toFinset ∪ l2.toFinset).card =
      l1.toFinset.card + (l2.toFinset \ l1.toFinset).card := by
    rw [← Finset.card_union_of_disjoint Finset.disjoint_sdiff,
      Finset.union_sdiff_self_eq_union]
  rw [hcard2, hu, List.card_toFinset]

end ListFinsetHelpers

/-- Claim C5 (amended): calculate_text_similarity realizes the claimed
blend — 0.7 sequence-alignment ratio plus 0.3 Jaccard index over word
sets — whenever both inputs contain a word, falls back to the bare
sequence ratio for nonempty inputs without words, and returns 0 whenever
either input is empty, including when both are (where the claim said 1). -/
theorem calculate_text_similarity_spec (a b : List Char) :
    calculate_text_similarity a b = textSimilaritySpec a b := by
  unfold calculate_text_similarity textSimilaritySpec
  by_cases hab : (a.isEmpty || b.isEmpty) = true
  · rw [if_pos hab, if_pos hab]
  · rw [if_neg hab, if_neg hab]
    dsimp only
    by_cases hw : pySplit a ≠ [] ∧ pySplit b ≠ []
    · have hb1 : (!(pySplit a).dedup.isEmpty) = true := by
        simp [List.isEmpty_iff, List.dedup_eq_nil, hw.1]
      have hb2 : (!(pySplit b).dedup.isEmpty) = true := by
        simp [List.isEmpty_iff, List.dedup_eq_nil, hw.2]
      have hfin : (wordSet a).Nonempty ∧ (wordSet b).Nonempty :=
        ⟨(List.toFinset_nonempty_iff _).mpr hw.1, (List.toFinset_nonempty_iff _).mpr hw.2⟩
      rw [hb1, hb2]
      simp only [Bool.and_self, if_pos hfin, if_true]
      congr 1
      congr 1
      rw [wordSet, wordSet, ← length_filter_contains_dedup (pySplit a) (pySplit b),
        ← length_union_split_dedup (pySplit a) (pySplit b)]
    · have hq : ¬ ((wordSet a).Nonempty ∧ (wordSet b).Nonempty) := by
        intro hc
        exact hw ⟨(List.toFinset_nonempty_iff _).mp hc.1, (List.toFinset_nonempty_iff _).mp hc.2⟩
      rw [if_neg hq]
      rcases not_and_or.mp hw with h | h
      · have : (pySplit a).dedup.isEmpty = true := by
          simp [List.isEmpty_iff, List.dedup_eq_nil]
          exact not_not.mp h
        rw [this]
        simp
      · have : (pySplit b).dedup.isEmpty = true := by
          simp [List.isEmpty_iff, List.dedup_eq_nil]
          exact not_not.mp h
        rw [this]
        simp

/-! ### Claim C7 -/

/-- Claim C7: with a stored baseline fingerprint and a current fingerprint
of the same fixed length, OCR and the full analysis are skipped (the visual
gate reports no significant change) exactly when the fingerprint similarity
is at least 1 minus the visual-change threshold, where equal fingerprints
have similarity 1 and unequal ones the normalized Hamming agreement; and a
sentinel (empty) fingerprint on either side forces the analysis to
proceed. -/
theorem has_significant_visual_change_spec (vthr : ℚ) (last cur : List Char)
    (hthr : 0 ≤ vthr) (hlast : last ≠ []) (hcur : cur ≠ [])
    (hlen : cur.length = last.length) :
    ((has_significant_visual_change vthr last cur = false) ↔
      1 - vthr ≤ fingerprintSimilarity last cur) ∧
    (∀ l, has_significant_visual_change vthr l [] = true) ∧
    (∀ c, has_significant_visual_change vthr [] c = true) := by
  refine ⟨?_, ?_, ?_⟩
  · unfold has_significant_visual_change fingerprintSimilarity
    have h1 : (last.isEmpty || cur.isEmpty) = false := by
      simp [List.isEmpty_iff, hlast, hcur]
    rw [h1]
    by_cases heq : cur = last
    · rw [if_pos heq, if_pos heq]
      exact ⟨fun _ => by linarith, fun _ => rfl⟩
    · rw [if_neg heq, if_neg heq, if_pos hlen]
      simp only [Bool.false_eq_true, if_false]
      rw [show (∀ q : ℚ, (decide (q < 1 - vthr) = false) ↔ 1 - vthr ≤ q) from
        fun q => by rw [decide_eq_false_iff_not, not_lt]]
  · intro l
    unfold has_significant_visual_change
    simp
  · intro c
    unfold has_significant_visual_change
    simp

/-- Claim C7 witness: the gating equivalence applied to two concrete
16-character fingerprints differing in one character, at the default
threshold 0.15. -/
theorem has_significant_visual_change_spec_witness :
    (has_significant_visual_change (15/100) hashB "bbbbbbbbbbbbbbbc".toList = false) ↔
      1 - 15/100 ≤ fingerprintSimilarity hashB "bbbbbbbbbbbbbbbc".toList :=
  (has_significant_visual_change_spec (15/100) hashB "bbbbbbbbbbbbbbbc".toList
    (by norm_num) (by decide) (by decide) (by decide)).1

/-! ### Claim C8 -/

/-- Claim C8 (amended): start_continuous_monitoring is a warning-logging
no-op when monitoring is already active (no exception, state and callback
untouched); when the OCR collaborator is unavailable it logs an error and
returns normally — the caller is not signalled and no exception is raised —
and monitoring does not begin; otherwise it stores the callback, marks
monitoring active and captures an initial baseline. -/
theorem start_continuous_monitoring_contract (st : ScannerState) (cb : Bool)
    (cap : Option FrameData) :
    (st.monitoring_active = true →
      start_continuous_monitoring st cb cap = (st, .warnedAlreadyActive)) ∧
    (st.monitoring_active = false → st.tesseract_available = false →
      start_continuous_monitoring st cb cap = (st, .loggedTesseractError)) ∧
    (st.monitoring_active = false → st.tesseract_available = true →
      (start_continuous_monitoring st cb cap).1.monitoring_active = true ∧
      (start_continuous_monitoring st cb cap).1.has_callback = cb ∧
      (start_continuous_monitoring st cb cap).2 = .started) := by
  refine ⟨?_, ?_, ?_⟩
  · intro h
    unfold start_continuous_monitoring
    rw [if_pos h]
  · intro h1 h2
    unfold start_continuous_monitoring
    rw [if_neg (by simp [h1]), if_pos (by simp [h2])]
  · intro h1 h2
    unfold start_continuous_monitoring update_baseline_screen
    rw [if_neg (by simp [h1]), if_neg (by simp [h2])]
    rcases cap with _ | f
    · exact ⟨rfl, rfl, rfl⟩
    · dsimp only
      by_cases hf : (!f.ocr_text.isEmpty && !ocrErrorTagged f.ocr_text) = true
      · rw [if_pos hf]
        exact ⟨rfl, rfl, rfl⟩
      · rw [if_neg hf]
        exact ⟨rfl, rfl, rfl⟩

/-- Claim C8 witness: the contract applied to a concrete inactive scanner
with tesseract available. -/
theorem start_continuous_monitoring_contract_witness :
    (start_continuous_monitoring ⟨false, true, false, [], []⟩ true none).1.monitoring_active = true ∧
    (start_continuous_monitoring ⟨false, true, false, [], []⟩ true none).1.has_callback = true ∧
    (start_continuous_monitoring ⟨false, true, false, [], []⟩ true none).2 = .started :=
  (start_continuous_monitoring_contract ⟨false, true, false, [], []⟩ true none).2.2 rfl rfl

/-- Claim C8 (counterexample): with OCR unavailable, start logs and returns
normally with the scanner state untouched — the outcome is not a raised
exception surfaced to the caller, and monitoring has not begun. -/
theorem start_ocr_unavailable_not_surfaced :
    start_continuous_monitoring ⟨false, false, false, [], []⟩ true none =
      (⟨false, false, false, [], []⟩, .loggedTesseractError) ∧
    StartOutcome.loggedTesseractError ≠ StartOutcome.raised ∧
    (start_continuous_monitoring ⟨false, false, false, [], []⟩ true none).1.monitoring_active = false := by
  refine ⟨rfl, by decide, rfl⟩

/-! ### Claim C5 counterexample -/

/-- Claim C5 (counterexample): on two empty inputs the code returns 0,
not 1 as claimed. -/
theorem calculate_text_similarity_both_empty :
    calculate_text_similarity [] [] = 0 ∧ calculate_text_similarity [] [] ≠ 1 := by
  constructor
  · rfl
  · intro h
    have : (0 : ℚ) = 1 := by
      calc (0 : ℚ) = calculate_text_similarity [] [] := rfl
        _ = 1 := h
    norm_num at this

/-! ### Evaluation helpers for the classifier and the monitor tick -/

/-- Unfolding lemma: the analysis of a tick in terms of the three similarity
readings. -/
theorem analyze_screen_change_eval (thr : ℚ) (last cur : List Char)
    (h1 : last.isEmpty = false) (h2 : cur.isEmpty = false)
    (ts ss : ℚ) (sem : SemanticChanges)
    (hts : calculate_text_similarity (clean_text_for_comparison cur)
      (clean_text_for_comparison last) = ts)
    (hss : calculate_structure_similarity cur last = ss)
    (hsem : detect_semantic_changes cur last = sem) :
    analyze_screen_change thr last cur =
      (if ts < 3/10 then
        { is_significant := true, is_major := true,
          change_type := "major_content_change", confidence := 1 - ts }
       else if ss < 4/10 then
        { is_significant := true, is_major := true,
          change_type := "layout_change", confidence := 1 - ss }
       else if sem.has_major_changes then
        { is_significant := true, is_major := true,
          change_type := "semantic_change", confidence := sem.confidence }
       else if ts < thr then
        { is_significant := true, is_major := false,
          change_type := "content_update", confidence := (thr - ts) / thr }
       else
        { is_significant := false, is_major := false,
          change_type := "minor_change", confidence := 0 }) := by
  unfold analyze_screen_change
  rw [h1, h2]
  simp only [Bool.or_self, Bool.false_eq_true, if_false]
  rw [hts, hss, hsem]

/-- Unfolding lemma: a frame tick that passes the visual gate with a good
OCR text, in terms of its analysis. -/
theorem monitor_tick_frame_eval (cfg : MonitorConfig) (st : LoopState) (f : FrameData)
    (now : ℚ) (A : ChangeAnalysis)
    (hvis : has_significant_visual_change cfg.visual_change_threshold
      st.last_visual_hash f.visual_hash = true)
    (ht1 : f.ocr_text.isEmpty = false)
    (ht2 : ocrErrorTagged f.ocr_text = false)
    (hA : analyze_screen_change cfg.similarity_threshold st.last_screen_text f.ocr_text = A) :
    monitor_tick cfg st (.tick (some f) now) =
      (if A.is_significant then
        (if cfg.confidence_threshold ≤ A.confidence
            && (A.is_major || min_interval ≤ now - st.last_major_change) then
          ({ st with
              consecutive_errors := 0
              last_screen_text := f.ocr_text
              last_visual_hash := f.visual_hash
              last_major_change := now }, true)
         else ({ st with consecutive_errors := 0 }, false))
       else ({ st with consecutive_errors := 0 }, false)) := by
  simp only [monitor_tick, hvis, ht1, ht2, Bool.not_false, Bool.and_self, if_true, hA]

/-! ### Concrete classifier readings for the witness texts

The rational values were computed from the embedded definitions; each is
checked here by kernel evaluation. -/

theorem clean_fixes_glass : clean_text_for_comparison textGlass = textGlass := by decide

theorem clean_fixes_quilt : clean_text_for_comparison textQuilt = textQuilt := by decide

theorem clean_fixes_pride : clean_text_for_comparison textPride = textPride := by decide

theorem clean_fixes_lemma : clean_text_for_comparison textLemma = textLemma := by decide

theorem analyze_glass_quilt :
    analyze_screen_change (85/100) textGlass textQuilt =
      { is_significant := true, is_major := false,
        change_type := "content_update", confidence := 1521/2737 } := by
  rw [analyze_screen_change_eval (85/100) textGlass textQuilt rfl rfl
    (304/805) 1 ⟨false, [], 0⟩
    (by rw [clean_fixes_glass, clean_fixes_quilt]; with_unfolding_all decide)
    (by with_unfolding_all decide)
    (by with_unfolding_all decide)]
  norm_num

theorem analyze_quilt_pride :
    analyze_screen_change (85/100) textQuilt textPride =
      { is_significant := true, is_major := false,
        change_type := "content_update", confidence := 101/161 } := by
  rw [analyze_screen_change_eval (85/100) textQuilt textPride rfl rfl
    (51/161) 1 ⟨false, [], 0⟩
    (by rw [clean_fixes_quilt, clean_fixes_pride]; with_unfolding_all decide)
    (by with_unfolding_all decide)
    (by with_unfolding_all decide)]
  norm_num

theorem analyze_glass_pride :
    analyze_screen_change (85/100) textGlass textPride =
      { is_significant := true, is_major := true,
        change_type := "major_content_change", confidence := 209/230 } := by
  rw [analyze_screen_change_eval (85/100) textGlass textPride rfl rfl
    (21/230) 1 ⟨false, [], 0⟩
    (by rw [clean_fixes_glass, clean_fixes_pride]; with_unfolding_all decide)
    (by with_unfolding_all decide)
    (by with_unfolding_all decide)]
  norm_num

theorem analyze_quilt_lemma :
    analyze_screen_change (85/100) textQuilt textLemma =
      { is_significant := true, is_major := false,
        change_type := "content_update", confidence := 1619/2737 } := by
  rw [analyze_screen_change_eval (85/100) textQuilt textLemma rfl rfl
    (559/1610) 1 ⟨false, [], 0⟩
    (by rw [clean_fixes_quilt, clean_fixes_lemma]; with_unfolding_all decide)
    (by with_unfolding_all decide)
    (by with_unfolding_all decide)]
  norm_num

theorem analyze_pride_lemma :
    analyze_screen_change (85/100) textPride textLemma =
      { is_significant := true, is_major := true,
        change_type := "major_content_change", confidence := 181/230 } := by
  rw [analyze_screen_change_eval (85/100) textPride textLemma rfl rfl
    (49/230) 1 ⟨false, [], 0⟩
    (by rw [clean_fixes_pride, clean_fixes_lemma]; with_unfolding_all decide)
    (by with_unfolding_all decide)
    (by with_unfolding_all decide)]
  norm_num

/-- Necessary conditions for a tick to be accepted: a significant analysis
whose confidence clears the threshold, major or past the cooldown. -/
theorem monitor_tick_accepted_gate (cfg : MonitorConfig) (st : LoopState)
    (f : FrameData) (now : ℚ)
    (h : (monitor_tick cfg st (.tick (some f) now)).2 = true) :
    (analyze_screen_change cfg.similarity_threshold st.last_screen_text f.ocr_text).is_significant = true ∧
    cfg.confidence_threshold ≤
      (analyze_screen_change cfg.similarity_threshold st.last_screen_text f.ocr_text).confidence ∧
    ((analyze_screen_change cfg.similarity_threshold st.last_screen_text f.ocr_text).is_major = true ∨
      min_interval ≤ now - st.last_major_change) := by
  simp only [monitor_tick] at h
  split_ifs at h with h1 h2 h3 h4
  · rw [Bool.and_eq_true, decide_eq_true_iff] at h4
    have h42 := h4.2
    rw [Bool.or_eq_true, decide_eq_true_iff] at h42
    exact ⟨h3, h4.1, h42⟩

/-- The state after an accepted tick: baseline text and fingerprint replaced
by the tick's, notification timestamp recorded, error counter reset. -/
theorem monitor_tick_accepted_state (cfg : MonitorConfig) (st : LoopState)
    (f : FrameData) (now : ℚ)
    (h : (monitor_tick cfg st (.tick (some f) now)).2 = true) :
    (monitor_tick cfg st (.tick (some f) now)).1 =
      { st with
          consecutive_errors := 0
          last_screen_text := f.ocr_text
          last_visual_hash := f.visual_hash
          last_major_change := now } := by
  simp only [monitor_tick] at h ⊢
  split_ifs at h with h1 h2 h3 h4
  · rw [if_pos h1, if_pos h2, if_pos h3, if_pos h4]

/-! ### Concrete monitor ticks over the witness trace -/

theorem tick_low_1 :
    monitor_tick cfgDefault ⟨true, textGlass, [], 0, 0, true⟩
      (.tick (some ⟨hashB, textQuilt⟩) 10) =
      (⟨true, textQuilt, hashB, 10, 0, true⟩, true) := by
  rw [monitor_tick_frame_eval _ _ _ _ _ (by decide) (by decide) (by decide)
    analyze_glass_quilt]
  with_unfolding_all decide

theorem tick_low_2 :
    monitor_tick cfgDefault ⟨true, textQuilt, hashB, 10, 0, true⟩
      (.tick (some ⟨hashC, textPride⟩) 12) =
      (⟨true, textQuilt, hashB, 10, 0, true⟩, false) := by
  rw [monitor_tick_frame_eval _ _ _ _ _ (by with_unfolding_all decide) (by decide)
    (by decide) analyze_quilt_pride]
  with_unfolding_all decide

theorem tick_low_3 :
    monitor_tick cfgDefault ⟨true, textQuilt, hashB, 10, 0, true⟩
      (.tick (some ⟨hashD, textLemma⟩) 13) =
      (⟨true, textQuilt, hashB, 10, 0, true⟩, false) := by
  rw [monitor_tick_frame_eval _ _ _ _ _ (by with_unfolding_all decide) (by decide)
    (by decide) analyze_quilt_lemma]
  with_unfolding_all decide

theorem tick_strict_1 :
    monitor_tick cfgStrict ⟨true, textGlass, [], 0, 0, true⟩
      (.tick (some ⟨hashB, textQuilt⟩) 10) =
      (⟨true, textGlass, [], 0, 0, true⟩, false) := by
  rw [monitor_tick_frame_eval _ _ _ _ _ (by decide) (by decide) (by decide)
    analyze_glass_quilt]
  with_unfolding_all decide

theorem tick_strict_2 :
    monitor_tick cfgStrict ⟨true, textGlass, [], 0, 0, true⟩
      (.tick (some ⟨hashC, textPride⟩) 12) =
      (⟨true, textPride, hashC, 12, 0, true⟩, true) := by
  rw [monitor_tick_frame_eval _ _ _ _ _ (by decide) (by decide) (by decide)
    analyze_glass_pride]
  with_unfolding_all decide

theorem tick_strict_3 :
    monitor_tick cfgStrict ⟨true, textPride, hashC, 12, 0, true⟩
      (.tick (some ⟨hashD, textLemma⟩) 13) =
      (⟨true, textLemma, hashD, 13, 0, true⟩, true) := by
  rw [monitor_tick_frame_eval _ _ _ _ _ (by with_unfolding_all decide) (by decide)
    (by decide) analyze_pride_lemma]
  with_unfolding_all decide

/-! ### Claim C2 -/

/-- Claim C2: in a monitor tick, the change is accepted (baseline updated
and the callback notified) only when the classified analysis is significant,
its confidence reaches the confidence threshold, and the change is major or
at least the minimum spacing (5 seconds) has elapsed since the last accepted
notification; consequently, of two consecutive non-major significant changes
within the spacing window, only the first is notified. -/
theorem monitor_notification_gate_and_cooldown (cfg : MonitorConfig) (st : LoopState)
    (f : FrameData) (now : ℚ) :
    ((monitor_tick cfg st (.tick (some f) now)).2 = true →
      (analyze_screen_change cfg.similarity_threshold st.last_screen_text f.ocr_text).is_significant = true ∧
      cfg.confidence_threshold ≤
        (analyze_screen_change cfg.similarity_threshold st.last_screen_text f.ocr_text).confidence ∧
      ((analyze_screen_change cfg.similarity_threshold st.last_screen_text f.ocr_text).is_major = true ∨
        min_interval ≤ now - st.last_major_change)) ∧
    (∀ f₂ : FrameData, ∀ now₂ : ℚ,
      (monitor_tick cfg st (.tick (some f) now)).2 = true →
      (analyze_screen_change cfg.similarity_threshold f.ocr_text f₂.ocr_text).is_major = false →
      now₂ - now < min_interval →
      (monitor_tick cfg (monitor_tick cfg st (.tick (some f) now)).1
        (.tick (some f₂) now₂)).2 = false) := by
  constructor
  · exact monitor_tick_accepted_gate cfg st f now
  · intro f₂ now₂ hacc hmaj hlt
    rw [monitor_tick_accepted_state cfg st f now hacc]
    rcases hb : (monitor_tick cfg
      { st with
          consecutive_errors := 0
          last_screen_text := f.ocr_text
          last_visual_hash := f.visual_hash
          last_major_change := now } (.tick (some f₂) now₂)).2 with _ | _
    · rfl
    · exfalso
      obtain ⟨_, _, hgate⟩ := monitor_tick_accepted_gate cfg _ f₂ now₂ hb
      rcases hgate with hM | hC
      · rw [hmaj] at hM
        exact Bool.false_ne_true hM
      · simp only at hC
        linarith

/-- Claim C2 witness: the gate-and-cooldown theorem applied to the quilt
tick accepted at second 10 followed by the non-major pride tick at second
12, which is suppressed. -/
theorem monitor_notification_gate_and_cooldown_witness :
    (monitor_tick cfgDefault
      (monitor_tick cfgDefault ⟨true, textGlass, [], 0, 0, true⟩
        (.tick (some ⟨hashB, textQuilt⟩) 10)).1
      (.tick (some ⟨hashC, textPride⟩) 12)).2 = false :=
  (monitor_notification_gate_and_cooldown cfgDefault ⟨true, textGlass, [], 0, 0, true⟩
      ⟨hashB, textQuilt⟩ 10).2 ⟨hashC, textPride⟩ 12
    (by rw [tick_low_1])
    (by rw [show cfgDefault.similarity_threshold = (85 : ℚ)/100 from rfl, analyze_quilt_pride])
    (by rw [min_interval]; norm_num)

/-! ### Claim C3 -/

/-- Claim C3 (amended): only an exception raised inside the tick body
increments the consecutive-error counter and self-terminates the loop at the
fifth consecutive failure; a tick whose capture returns no frame increments
the counter but never triggers the termination check, a tick whose OCR
returns an error-tagged text neither increments nor resets the counter, and
the counter resets to zero exactly in a tick that passes the visual gate
with a nonempty, non-error OCR text. -/
theorem monitor_tick_error_policy (cfg : MonitorConfig) (st : LoopState) :
    (5 ≤ st.consecutive_errors + 1 →
      monitor_tick cfg st .exn =
        ({ st with consecutive_errors := st.consecutive_errors + 1, monitoring_active := false }, false)) ∧
    (st.consecutive_errors + 1 < 5 →
      monitor_tick cfg st .exn =
        ({ st with consecutive_errors := st.consecutive_errors + 1 }, false)) ∧
    (∀ now : ℚ, monitor_tick cfg st (.tick none now) =
        ({ st with consecutive_errors := st.consecutive_errors + 1 }, false)) ∧
    (∀ f : FrameData, ∀ now : ℚ, ocrErrorTagged f.ocr_text = true →
      monitor_tick cfg st (.tick (some f) now) = (st, false)) ∧
    (∀ f : FrameData, ∀ now : ℚ,
      has_significant_visual_change cfg.visual_change_threshold
        st.last_visual_hash f.visual_hash = true →
      f.ocr_text.isEmpty = false → ocrErrorTagged f.ocr_text = false →
      (monitor_tick cfg st (.tick (some f) now)).1.consecutive_errors = 0) := by
  refine ⟨?_, ?_, ?_, ?_, ?_⟩
  · intro h
    have h' : max_consecutive_errors ≤ st.consecutive_errors + 1 := h
    simp only [monitor_tick]
    rw [if_pos h']
  · intro h
    have h' : ¬ max_consecutive_errors ≤ st.consecutive_errors + 1 := by
      simp only [max_consecutive_errors]
      omega
    simp only [monitor_tick]
    rw [if_neg h']
  · intro now
    simp only [monitor_tick]
  · intro f now h
    simp only [monitor_tick, h, Bool.not_true, Bool.and_false, Bool.false_eq_true, if_false]
    split_ifs <;> rfl
  · intro f now hvis h1 h2
    simp only [monitor_tick, hvis, h1, h2, Bool.not_false, Bool.and_self, if_true]
    split_ifs <;> rfl

/-- Claim C3 witness: a fifth consecutive exception self-terminates the
loop. -/
theorem monitor_tick_error_policy_witness :
    monitor_tick cfgDefault ⟨true, [], [], 0, 4, true⟩ .exn =
      (⟨false, [], [], 0, 5, true⟩, false) :=
  (monitor_tick_error_policy cfgDefault ⟨true, [], [], 0, 4, true⟩).1 (by norm_num)

/-- Claim C3 (counterexample): five consecutive ticks whose screen capture
fails (returns no frame) leave the counter at five yet the loop still
active — the self-termination the claim promises for capture failures never
happens, because the counter is only checked in the exception handler. -/
theorem capture_failures_do_not_terminate :
    (run_monitor cfgDefault ⟨true, textGlass, [], 0, 0, true⟩
      (List.replicate 5 (.tick none 0))).1.monitoring_active = true ∧
    (run_monitor cfgDefault ⟨true, textGlass, [], 0, 0, true⟩
      (List.replicate 5 (.tick none 0))).1.consecutive_errors = 5 := by
  constructor
  · with_unfolding_all decide
  · with_unfolding_all decide

/-! ### Claim C6 -/

/-- Claim C6: the stored baseline text and baseline fingerprint are replaced
exactly in an accepted tick — one that passed the visual gate and OCR, whose
analysis is significant, whose confidence clears the threshold and which is
major or past the cooldown — and on every other tick (not significant,
suppressed by the gate, capture failure, OCR failure, or exception) both are
unchanged. -/
theorem baseline_updated_only_on_accepted_change (cfg : MonitorConfig)
    (st : LoopState) (inp : TickInput) :
    ((monitor_tick cfg st inp).2 = false →
      (monitor_tick cfg st inp).1.last_screen_text = st.last_screen_text ∧
      (monitor_tick cfg st inp).1.last_visual_hash = st.last_visual_hash) ∧
    ((monitor_tick cfg st inp).2 = true →
      ∃ f : FrameData, ∃ now : ℚ, inp = TickInput.tick (some f) now ∧
        (monitor_tick cfg st inp).1.last_screen_text = f.ocr_text ∧
        (monitor_tick cfg st inp).1.last_visual_hash = f.visual_hash ∧
        (analyze_screen_change cfg.similarity_threshold st.last_screen_text f.ocr_text).is_significant = true ∧
        cfg.confidence_threshold ≤
          (analyze_screen_change cfg.similarity_threshold st.last_screen_text f.ocr_text).confidence ∧
        ((analyze_screen_change cfg.similarity_threshold st.last_screen_text f.ocr_text).is_major = true ∨
          min_interval ≤ now - st.last_major_change)) := by
  constructor
  · intro h
    rcases inp with _ | ⟨_ | f, now⟩
    · simp only [monitor_tick]
      split_ifs <;> exact ⟨rfl, rfl⟩
    · simp [monitor_tick]
    · simp only [monitor_tick] at h ⊢
      split_ifs at h ⊢ <;> first | exact ⟨rfl, rfl⟩ | simp at h
  · intro h
    rcases inp with _ | ⟨_ | f, now⟩
    · exfalso
      simp only [monitor_tick] at h
      split_ifs at h <;> simp at h
    · exfalso
      simp only [monitor_tick] at h
      simp at h
    · refine ⟨f, now, rfl, ?_⟩
      have hstate := monitor_tick_accepted_state cfg st f now h
      have hgate := monitor_tick_accepted_gate cfg st f now h
      rw [hstate]
      exact ⟨rfl, rfl, hgate⟩

/-- Claim C6 witness: a tick whose OCR text carries the error tag leaves the
baseline text and fingerprint untouched. -/
theorem baseline_unchanged_on_ocr_error_witness :
    (monitor_tick cfgDefault ⟨true, textGlass, [], 0, 0, true⟩
      (.tick (some ⟨hashB, "OCR_ERROR: tesseract failed".toList⟩) 10)).1.last_screen_text = textGlass ∧
    (monitor_tick cfgDefault ⟨true, textGlass, [], 0, 0, true⟩
      (.tick (some ⟨hashB, "OCR_ERROR: tesseract failed".toList⟩) 10)).1.last_visual_hash = [] :=
  (baseline_updated_only_on_accepted_change cfgDefault ⟨true, textGlass, [], 0, 0, true⟩
    (.tick (some ⟨hashB, "OCR_ERROR: tesseract failed".toList⟩) 10)).1 (by decide)

/-! ### Claim C9 -/

/-- Claim C9 (counterexample): on the three-tick trace from the glass
baseline, the default confidence threshold 0.5 accepts exactly one change
while the larger threshold 0.7 accepts two: raising the threshold rejects
the first moderate change, which preserves the old baseline, against which
the later texts register as major changes that bypass both threshold
and cooldown. -/
theorem raising_confidence_threshold_accepts_more :
    (run_monitor cfgDefault ⟨true, textGlass, [], 0, 0, true⟩ traceQPL).2 = 1 ∧
    (run_monitor cfgStrict ⟨true, textGlass, [], 0, 0, true⟩ traceQPL).2 = 2 ∧
    cfgDefault.confidence_threshold < cfgStrict.confidence_threshold := by
  refine ⟨?_, ?_, by norm_num [cfgDefault, cfgStrict]⟩
  · simp only [traceQPL, run_monitor, tick_low_1, tick_low_2, tick_low_3, if_pos]
    norm_num
  · simp only [traceQPL, run_monitor, tick_strict_1, tick_strict_2, tick_strict_3, if_pos]
    norm_num

/-- Claim C9 (amended): for a fixed loop state and tick input, raising the
confidence threshold never turns a rejected tick into an accepted one (the
per-tick gate is antitone in the threshold); over a whole run the accepted
count is not antitone, because acceptance feeds back into the baseline, as
the counterexample trace shows. -/
theorem monitor_tick_gate_antitone (cfg : MonitorConfig) (t t' : ℚ) (h : t ≤ t')
    (st : LoopState) (inp : TickInput) :
    (monitor_tick { cfg with confidence_threshold := t' } st inp).2 = true →
    (monitor_tick { cfg with confidence_threshold := t } st inp).2 = true := by
  intro hacc
  rcases inp with _ | ⟨_ | f, now⟩
  · exfalso
    simp only [monitor_tick] at hacc
    split_ifs at hacc <;> simp at hacc
  · exfalso
    simp only [monitor_tick] at hacc
    simp at hacc
  · simp only [monitor_tick] at hacc ⊢
    split_ifs at hacc with h1 h2 h3 h4
    · rw [if_pos h1, if_pos h2, if_pos h3, if_pos ?_]
      rw [Bool.and_eq_true, decide_eq_true_iff] at h4
      rw [Bool.and_eq_true, decide_eq_true_iff]
      exact ⟨le_trans h h4.1, h4.2⟩
    all_goals simp at hacc

/-- Claim C9 witness for the amended per-tick monotonicity: the pride tick
accepted at threshold 0.7 from the glass baseline is also accepted at
threshold 0.5. -/
theorem monitor_tick_gate_antitone_witness :
    (monitor_tick { cfgDefault with confidence_threshold := 1/2 }
      ⟨true, textGlass, [], 0, 0, true⟩ (.tick (some ⟨hashC, textPride⟩) 12)).2 = true :=
  monitor_tick_gate_antitone cfgDefault (1/2) (7/10) (by norm_num)
    ⟨true, textGlass, [], 0, 0, true⟩ (.tick (some ⟨hashC, textPride⟩) 12)
    (by rw [show ({ cfgDefault with confidence_threshold := 7/10 } : MonitorConfig) = cfgStrict
          from rfl, tick_strict_2])

/-! ### Claim C4: helper lemmas about the normalization pipeline -/

theorem char_toNat_ofNat_of_lt {n : Nat} (h : n < 55296) : (Char.ofNat n).toNat = n := by
  unfold Char.ofNat
  rw [dif_pos (Or.inl h)]
  rfl

theorem char_le_toNat (a b : Char) : a ≤ b ↔ a.toNat ≤ b.toNat := Iff.rfl

theorem char_eq_toNat (a b : Char) : a = b ↔ a.toNat = b.toNat :=
  ⟨fun h => by rw [h], fun h => Char.ext (UInt32.ext h)⟩

theorem toNat_toLower (c : Char) :
    c.toLower.toNat = if 65 ≤ c.toNat ∧ c.toNat ≤ 90 then c.toNat + 32 else c.toNat := by
  unfold Char.toLower
  by_cases h : 65 ≤ c.toNat ∧ c.toNat ≤ 90
  · rw [if_pos ⟨h.1, h.2⟩, if_pos h, char_toNat_ofNat_of_lt (by omega)]
  · rw [if_neg (by omega : ¬ (c.toNat ≥ 65 ∧ c.toNat ≤ 90)), if_neg h]

theorem pyIsSpace_iff_toNat (c : Char) :
    pyIsSpace c = true ↔
      (c.toNat = 32 ∨ c.toNat = 9 ∨ c.toNat = 10 ∨ c.toNat = 13 ∨
        c.toNat = 11 ∨ c.toNat = 12) := by
  have h32 : (' ' : Char).toNat = 32 := rfl
  have h9 : ('\t' : Char).toNat = 9 := rfl
  have h10 : ('\n' : Char).toNat = 10 := rfl
  have h13 : ('\r' : Char).toNat = 13 := rfl
  have h11 : (Char.ofNat 11).toNat = 11 := rfl
  have h12 : (Char.ofNat 12).toNat = 12 := rfl
  simp only [pyIsSpace, Bool.or_eq_true, decide_eq_true_iff, char_eq_toNat,
    h32, h9, h10, h13, h11, h12]
  tauto

theorem pyIsSpace_toLower (c : Char) : pyIsSpace c.toLower = pyIsSpace c := by
  rw [Bool.eq_iff_iff, pyIsSpace_iff_toNat, pyIsSpace_iff_toNat, toNat_toLower]
  by_cases h : 65 ≤ c.toNat ∧ c.toNat ≤ 90
  · rw [if_pos h]
    omega
  · rw [if_neg h]

theorem pyIsAlnumChar_iff_toNat (c : Char) :
    pyIsAlnumChar c = true ↔
      ((97 ≤ c.toNat ∧ c.toNat ≤ 122) ∨ (65 ≤ c.toNat ∧ c.toNat ≤ 90) ∨
        (48 ≤ c.toNat ∧ c.toNat ≤ 57)) := by
  have ha : ('a' : Char).toNat = 97 := rfl
  have hz : ('z' : Char).toNat = 122 := rfl
  have hA : ('A' : Char).toNat = 65 := rfl
  have hZ : ('Z' : Char).toNat = 90 := rfl
  have h0 : ('0' : Char).toNat = 48 := rfl
  have h9 : ('9' : Char).toNat = 57 := rfl
  simp only [pyIsAlnumChar, pyIsAlpha, pyIsDigit, Bool.or_eq_true, Bool.and_eq_true,
    decide_eq_true_iff, char_le_toNat, ha, hz, hA, hZ, h0, h9]
  tauto

theorem pyIsAlnumChar_toLower (c : Char) :
    pyIsAlnumChar c.toLower = pyIsAlnumChar c := by
  rw [Bool.eq_iff_iff, pyIsAlnumChar_iff_toNat, pyIsAlnumChar_iff_toNat, toNat_toLower]
  by_cases h : 65 ≤ c.toNat ∧ c.toNat ≤ 90
  · rw [if_pos h]
    omega
  · rw [if_neg h]

theorem toLower_idem (c : Char) : c.toLower.toLower = c.toLower := by
  rw [char_eq_toNat, toNat_toLower, toNat_toLower]
  split_ifs <;> omega

theorem pyLower_idem (s : List Char) : pyLower (pyLower s) = pyLower s := by
  simp only [pyLower, List.map_map]
  exact List.map_congr_left (fun c _ => toLower_idem c)

/-! List-level lemmas about split, join, strip and whitespace collapse. -/

theorem pySplitAux_good (s : List Char) :
    ∀ acc : List Char, (∀ c ∈ acc, pyIsSpace c = false) →
      ∀ w ∈ pySplitAux s acc, goodWord w := by
  induction s with
  | nil =>
    intro acc hacc w hw
    unfold pySplitAux at hw
    split_ifs at hw with he
    · simp at hw
    · simp only [List.mem_singleton] at hw
      subst hw
      refine ⟨fun hnil => he ?_, fun c hc => hacc c (List.mem_reverse.mp hc)⟩
      rw [List.isEmpty_iff]
      rw [← List.reverse_reverse acc, hnil]
      rfl
  | cons c cs ih =>
    intro acc hacc w hw
    unfold pySplitAux at hw
    split_ifs at hw with hsp he
    · exact ih [] (by simp) w hw
    · rcases List.mem_cons.mp hw with hw | hw
      · subst hw
        refine ⟨fun hnil => he ?_, fun d hd => hacc d (List.mem_reverse.mp hd)⟩
        rw [List.isEmpty_iff]
        rw [← List.reverse_reverse acc, hnil]
        rfl
      · exact ih [] (by simp) w hw
    · refine ih (c :: acc) ?_ w hw
      intro d hd
      rcases List.mem_cons.mp hd with hd | hd
      · subst hd
        simpa using hsp
      · exact hacc d hd

theorem pySplit_good (s : List Char) : ∀ w ∈ pySplit s, goodWord w :=
  pySplitAux_good s [] (by simp)

theorem dropWhile_eq_self_of_head (l : List Char)
    (h : ∀ c, l.head? = some c → pyIsSpace c = false) :
    l.dropWhile pyIsSpace = l := by
  cases l with
  | nil => rfl
  | cons c cs =>
    rw [List.dropWhile_cons_of_neg]
    rw [h c rfl]
    exact Bool.false_ne_true

theorem joinSp_cons_ne_nil (w : List Char) (ws : List (List Char)) (hw : w ≠ []) :
    joinSp (w :: ws) ≠ [] := by
  rcases ws with _ | ⟨w2, ws2⟩
  · exact hw
  · simp only [joinSp]
    rcases w with _ | ⟨d, ds⟩
    · exact absurd rfl hw
    · simp

theorem joinSp_head_good (ws : List (List Char)) (hws : ∀ w ∈ ws, goodWord w) :
    ∀ c, (joinSp ws).head? = some c → pyIsSpace c = false := by
  induction ws with
  | nil =>
    intro c hc
    simp [joinSp] at hc
  | cons w ws ih =>
    intro c hc
    have hg := hws w (List.mem_cons_self _ _)
    have hcmem : c ∈ w := by
      rcases ws with _ | ⟨w2, ws2⟩
      · simp only [joinSp] at hc
        exact List.mem_of_mem_head? (Option.mem_def.mpr hc)
      · simp only [joinSp] at hc
        rcases hw : w with _ | ⟨d, ds⟩
        · exact absurd hw hg.1
        · subst hw
          rw [List.cons_append, List.head?_cons, Option.some.injEq] at hc
          rw [← hc]
          exact List.mem_cons_self _ _
    exact hg.2 c hcmem

theorem joinSp_getLast_good (ws : List (List Char)) (hws : ∀ w ∈ ws, goodWord w) :
    ∀ c, (joinSp ws).getLast? = some c → pyIsSpace c = false := by
  induction ws with
  | nil =>
    intro c hc
    simp [joinSp] at hc
  | cons w ws ih =>
    intro c hc
    rcases ws with _ | ⟨w2, ws2⟩
    · simp only [joinSp] at hc
      have hcmem : c ∈ w := by
        obtain ⟨h, hx⟩ := List.mem_getLast?_eq_getLast (Option.mem_def.mpr hc)
        rw [hx]
        exact List.getLast_mem h
      exact (hws w (List.mem_cons_self _ _)).2 c hcmem
    · simp only [joinSp] at hc
      have hl : joinSp (w2 :: ws2) ≠ [] :=
        joinSp_cons_ne_nil w2 ws2 (hws w2 (by simp)).1
      rw [List.getLast?_append_of_ne_nil _ (by simp)] at hc
      rw [show (' ' :: joinSp (w2 :: ws2)) = [' '] ++ joinSp (w2 :: ws2) from rfl,
        List.getLast?_append_of_ne_nil _ hl] at hc
      exact ih (fun v hv => hws v (List.mem_cons_of_mem _ hv)) c hc

theorem pyStrip_joinSp (ws : List (List Char)) (hws : ∀ w ∈ ws, goodWord w) :
    pyStrip (joinSp ws) = joinSp ws := by
  unfold pyStrip
  rw [dropWhile_eq_self_of_head _ (joinSp_head_good ws hws)]
  rw [dropWhile_eq_self_of_head]
  · exact List.reverse_reverse _
  · intro c hc
    rw [List.head?_reverse] at hc
    exact joinSp_getLast_good ws hws c hc

theorem collapseWsAux_word (w : List Char) (hw : ∀ c ∈ w, pyIsSpace c = false) :
    ∀ t : List Char, ∀ b : Bool,
      collapseWsAux (w ++ t) b = w ++ collapseWsAux t (b && w.isEmpty) := by
  induction w with
  | nil =>
    intro t b
    simp
  | cons c cs ih =>
    intro t b
    simp only [List.cons_append, collapseWsAux, List.append_eq]
    rw [hw c (List.mem_cons_self _ _)]
    simp only [Bool.false_eq_true, if_false]
    rw [ih (fun d hd => hw d (List.mem_cons_of_mem _ hd)) t false]
    simp

theorem collapseWsAux_flag (l : List Char)
    (h : ∀ c, l.head? = some c → pyIsSpace c = false) :
    collapseWsAux l true = collapseWsAux l false := by
  cases l with
  | nil => rfl
  | cons c cs =>
    simp only [collapseWsAux]
    rw [h c rfl]
    simp

theorem collapseWs_joinSp (ws : List (List Char)) (hws : ∀ w ∈ ws, goodWord w) :
    collapseWs (joinSp ws) = joinSp ws := by
  induction ws with
  | nil => rfl
  | cons w ws ih =>
    have hg := hws w (List.mem_cons_self _ _)
    rcases ws with _ | ⟨w2, ws2⟩
    · show collapseWsAux (joinSp [w]) false = joinSp [w]
      simp only [joinSp]
      rw [← List.append_nil w, collapseWsAux_word w hg.2]
      simp [collapseWsAux]
    · show collapseWsAux (joinSp (w :: w2 :: ws2)) false = joinSp (w :: w2 :: ws2)
      simp only [joinSp]
      rw [collapseWsAux_word w hg.2]
      simp only [Bool.false_and]
      congr 1
      show collapseWsAux (' ' :: joinSp (w2 :: ws2)) false = ' ' :: joinSp (w2 :: ws2)
      rw [show collapseWsAux (' ' :: joinSp (w2 :: ws2)) false =
        ' ' :: collapseWsAux (joinSp (w2 :: ws2)) true from rfl]
      congr 1
      rw [collapseWsAux_flag _ (joinSp_head_good _ (fun v hv => hws v (List.mem_cons_of_mem _ hv)))]
      exact ih (fun v hv => hws v (List.mem_cons_of_mem _ hv))

theorem pySplitAux_word (w : List Char) (hw : ∀ c ∈ w, pyIsSpace c = false) :
    ∀ t : List Char, ∀ acc : List Char,
      pySplitAux (w ++ t) acc = pySplitAux t (w.reverse ++ acc) := by
  induction w with
  | nil =>
    intro t acc
    simp
  | cons c cs ih =>
    intro t acc
    simp only [List.cons_append, pySplitAux, List.append_eq]
    rw [hw c (List.mem_cons_self _ _)]
    simp only [Bool.false_eq_true, if_false]
    rw [ih (fun d hd => hw d (List.mem_cons_of_mem _ hd)) t (c :: acc)]
    simp

theorem pySplit_joinSp (ws : List (List Char)) (hws : ∀ w ∈ ws, goodWord w) :
    pySplit (joinSp ws) = ws := by
  induction ws with
  | nil => rfl
  | cons w ws ih =>
    have hg := hws w (List.mem_cons_self _ _)
    rcases ws with _ | ⟨w2, ws2⟩
    · show pySplitAux (joinSp [w]) [] = [w]
      simp only [joinSp]
      rw [← List.append_nil w, pySplitAux_word w hg.2]
      simp only [pySplitAux, List.append_nil]
      rw [if_neg]
      · rw [List.reverse_reverse]
      · simp only [List.isEmpty_iff, List.reverse_eq_nil_iff]
        exact hg.1
    · show pySplitAux (joinSp (w :: w2 :: ws2)) [] = w :: w2 :: ws2
      simp only [joinSp]
      rw [pySplitAux_word w hg.2]
      simp only [pySplitAux, List.append_nil]
      have hsp : pyIsSpace ' ' = true := rfl
      rw [hsp]
      simp only [if_true]
      rw [if_neg]
      · rw [List.reverse_reverse]
        have hrec := ih (fun v hv => hws v (List.mem_cons_of_mem _ hv))
        show w :: pySplitAux (joinSp (w2 :: ws2)) [] = w :: w2 :: ws2
        exact congrArg (List.cons w) hrec
      · simp only [List.isEmpty_iff, List.reverse_eq_nil_iff]
        exact hg.1

theorem keepWord_pyLower (w : List Char) (h : keepWord w = true) :
    keepWord (pyLower w) = true := by
  unfold keepWord at h ⊢
  rw [Bool.or_eq_true] at h ⊢
  rcases h with h | h
  · left
    rw [decide_eq_true_iff] at h ⊢
    simpa [pyLower] using h
  · right
    unfold pyIsAlnum at h ⊢
    rw [Bool.and_eq_true] at h ⊢
    refine ⟨by simpa [pyLower] using h.1, ?_⟩
    rw [List.all_eq_true] at h ⊢
    intro c hc
    simp only [pyLower, List.mem_map] at hc
    obtain ⟨d, hd, rfl⟩ := hc
    rw [pyIsAlnumChar_toLower]
    exact h.2 d hd

theorem goodWord_pyLower (w : List Char) (h : goodWord w) : goodWord (pyLower w) := by
  refine ⟨by simpa [pyLower] using h.1, ?_⟩
  intro c hc
  simp only [pyLower, List.mem_map] at hc
  obtain ⟨d, hd, rfl⟩ := hc
  rw [pyIsSpace_toLower]
  exact h.2 d hd

theorem pyLower_joinSp (ws : List (List Char)) :
    pyLower (joinSp ws) = joinSp (ws.map pyLower) := by
  induction ws with
  | nil => rfl
  | cons w ws ih =>
    rcases ws with _ | ⟨w2, ws2⟩
    · rfl
    · show pyLower (w ++ ' ' :: joinSp (w2 :: ws2)) =
        pyLower w ++ ' ' :: joinSp ((w2 :: ws2).map pyLower)
      rw [← ih]
      simp only [pyLower, List.map_append, List.map_cons]
      rfl

theorem clean_empty_input (s : List Char) (hs : s.isEmpty = true) :
    clean_text_for_comparison s = [] := by
  unfold clean_text_for_comparison
  rw [if_pos hs]

theorem clean_nonempty_eval (s : List Char) (hs : s.isEmpty = false) :
    clean_text_for_comparison s =
      pyLower (pyStrip (joinSp ((pySplit (collapseWs (stripNoise s))).filter keepWord))) := by
  unfold clean_text_for_comparison
  rw [hs]
  simp

/-! ### Claim C4 -/

/-- Claim C4 (counterexample): the normalization is not idempotent — in the
text 12:34Online:56, the first pass strips the status word Online, whose
removal glues the digits into a timestamp that only the second pass can
strip. -/
theorem clean_text_not_idempotent :
    clean_text_for_comparison (clean_text_for_comparison "12:34Online:56".toList) ≠
      clean_text_for_comparison "12:34Online:56".toList := by
  decide

/-- Claim C4 (amended): the normalization is idempotent on every input
whose normalized form the noise-stripping pass leaves unchanged (one
application of normalize can create a fresh noise-pattern occurrence by
deleting text between two fragments, and exactly then a second application
differs); all later pipeline stages — whitespace collapse, token filtering,
joining, stripping and lowercasing — are idempotent unconditionally. -/
theorem clean_text_idempotent_of_noise_fixed (t : List Char)
    (h : stripNoise (clean_text_for_comparison t) = clean_text_for_comparison t) :
    clean_text_for_comparison (clean_text_for_comparison t) = clean_text_for_comparison t := by
  by_cases ht : t.isEmpty = true
  · rw [clean_empty_input t ht]
    rfl
  · have ht' : t.isEmpty = false := Bool.eq_false_iff.mpr ht
    have hws' : ∀ w ∈ (pySplit (collapseWs (stripNoise t))).filter keepWord, goodWord w :=
      fun w hw => pySplit_good _ w (List.mem_of_mem_filter hw)
    have hkeep : ∀ w ∈ (pySplit (collapseWs (stripNoise t))).filter keepWord,
        keepWord w = true := fun w hw => List.of_mem_filter hw
    have hrep : clean_text_for_comparison t =
        joinSp (((pySplit (collapseWs (stripNoise t))).filter keepWord).map pyLower) := by
      rw [clean_nonempty_eval t ht', pyStrip_joinSp _ hws', pyLower_joinSp]
    have hgood2 : ∀ w ∈ ((pySplit (collapseWs (stripNoise t))).filter keepWord).map pyLower,
        goodWord w := by
      intro w hw
      simp only [List.mem_map] at hw
      obtain ⟨v, hv, rfl⟩ := hw
      exact goodWord_pyLower v (hws' v hv)
    have hkeep2 : ∀ w ∈ ((pySplit (collapseWs (stripNoise t))).filter keepWord).map pyLower,
        keepWord w = true := by
      intro w hw
      simp only [List.mem_map] at hw
      obtain ⟨v, hv, rfl⟩ := hw
      exact keepWord_pyLower v (hkeep v hv)
    by_cases hu : (clean_text_for_comparison t).isEmpty = true
    · rw [clean_empty_input _ hu]
      exact (List.isEmpty_iff.mp hu).symm
    · have hu' : (clean_text_for_comparison t).isEmpty = false := Bool.eq_false_iff.mpr hu
      rw [clean_nonempty_eval _ hu', h, hrep]
      rw [collapseWs_joinSp _ hgood2, pySplit_joinSp _ hgood2,
        List.filter_eq_self.mpr hkeep2, pyStrip_joinSp _ hgood2, pyLower_joinSp]
      rw [List.map_map]
      congr 1
      exact List.map_congr_left (fun w _ => pyLower_idem w)

/-- Claim C4 witness: the conditional idempotence applied to the text
hello world, on which the noise pass acts trivially. -/
theorem clean_text_idempotent_witness :
    clean_text_for_comparison (clean_text_for_comparison "hello world".toList) =
      clean_text_for_comparison "hello world".toList :=
  clean_text_idempotent_of_noise_fixed "hello world".toList (by decide)
